import Mathlib

/-!
# Verification of the claim decision engine

Shallow embedding of the decision core of the insurance-claims repository:
the fraud-risk classifier (`src/Azure/scoring.py`), the escalation policy and
review queue (`src/human_review_agent.py`), and the eligibility evaluator
(`check_claim_eligibility` in `src/backup.py`).  Numeric values (Python
floats/ints) are modelled as `Rat`; JSON blobs that the decision logic never
inspects are modelled as opaque `String` payloads.
-/

namespace ClaimsEngine

/-! ## FraudRiskClassifier — `get_risk_level` and the prediction flag
(`src/Azure/scoring.py`, lines 196-239) -/

/-- `get_risk_level(probability, threshold)` from `src/Azure/scoring.py`:
threshold-relative risk buckets. -/
def get_risk_level (probability threshold : Rat) : String :=
  if probability ≥ threshold then "High Risk (Fraud Detected)"
  else if probability ≥ threshold - 2/10 then "Medium Risk"
  else if probability ≥ threshold - 4/10 then "Low Risk"
  else "Very Low Risk"

/-- `predictions = (probabilities >= threshold).astype(int)` from
`src/Azure/scoring.py` line 200. -/
def fraud_prediction (probability threshold : Rat) : Nat :=
  if probability ≥ threshold then 1 else 0

/-- Ordinal position of a risk bucket: Very Low < Low < Medium < High. -/
def riskOrd (s : String) : Nat :=
  if s = "High Risk (Fraud Detected)" then 3
  else if s = "Medium Risk" then 2
  else if s = "Low Risk" then 1
  else 0

/-! ## EscalationPolicy — `HumanReviewAgent.needs_review`
(`src/human_review_agent.py`, lines 32-59).  Note the source function takes
only the confidence score and the failed-check labels; there is no
fraud-flag argument. -/

/-- Python `str.lower()`, modelled as a per-character map over the
string's characters. -/
def lowerStr (s : String) : String := String.mk (s.data.map Char.toLower)

/-- Python `str.strip()`: drop whitespace from both ends. -/
def trimStr (s : String) : String :=
  String.mk (((s.data.dropWhile Char.isWhitespace).reverse.dropWhile
    Char.isWhitespace).reverse)

/-- Boolean list-prefix test (used to model Python substring containment). -/
def prefixB : List Char → List Char → Bool
  | [], _ => true
  | _ :: _, [] => false
  | a :: as, b :: bs => a = b && prefixB as bs

/-- Boolean substring containment: Python's `needle in haystack`. -/
def substrB (n : List Char) : List Char → Bool
  | [] => prefixB n []
  | c :: t => prefixB n (c :: t) || substrB n t

/-- The edge-case vocabulary from `needs_review`. -/
def edge_cases : List String :=
  ["policy_expiry_ambiguous", "conflicting_information",
   "high_value_claim", "multiple_simultaneous_claims"]

/-- `HumanReviewAgent.needs_review(confidence_score, checks_failed)`:
low confidence triggers review, otherwise any failed-check label containing
an edge-case keyword does.  `confidence_threshold` is the constructor
argument (50.0 at every call site). -/
def needs_review (confidence_threshold confidence_score : Rat)
    (checks_failed : List String) : Bool :=
  if confidence_score < confidence_threshold then true
  else checks_failed.any fun check =>
    edge_cases.any fun e => substrB e.toList (lowerStr check).toList

/-! ## Date parsing — model of `datetime.strptime` restricted to the ten
formats tried by CHECK 4 of `check_claim_eligibility` (`src/backup.py`,
lines 568-640).  Python's `strptime` compiles the format to a regex
(`%d ↦ 3[01]|[12]\d|0[1-9]|[1-9]`, `%m ↦ 1[0-2]|0[1-9]|[1-9]`,
`%Y ↦ \d\d\d\d`, `%b ↦ case-insensitive month abbreviation`, whitespace
`↦ \s+`), takes the first backtracking match anchored at the start,
requires it to consume the whole string, then builds a `datetime`
(which validates the calendar date). -/

/-- Numeric value of a digit character. -/
def digitVal (c : Char) : Nat := c.toNat - 48

/-- Regex alternative `3[01]|[12]\d|0[1-9]|[1-9]` for `%d`, candidates in
backtracking preference order. -/
def matchDay : List Char → List (Nat × List Char)
  | c1 :: c2 :: rest =>
    (if c1 = '3' ∧ (c2 = '0' ∨ c2 = '1') then [(30 + digitVal c2, rest)] else []) ++
    (if (c1 = '1' ∨ c1 = '2') ∧ c2.isDigit then
      [(10 * digitVal c1 + digitVal c2, rest)] else []) ++
    (if c1 = '0' ∧ ('1' ≤ c2 ∧ c2 ≤ '9') then [(digitVal c2, rest)] else []) ++
    (if '1' ≤ c1 ∧ c1 ≤ '9' then [(digitVal c1, c2 :: rest)] else [])
  | [c1] => if '1' ≤ c1 ∧ c1 ≤ '9' then [(digitVal c1, [])] else []
  | [] => []

/-- Regex alternative `1[0-2]|0[1-9]|[1-9]` for `%m`. -/
def matchMon : List Char → List (Nat × List Char)
  | c1 :: c2 :: rest =>
    (if c1 = '1' ∧ ('0' ≤ c2 ∧ c2 ≤ '2') then [(10 + digitVal c2, rest)] else []) ++
    (if c1 = '0' ∧ ('1' ≤ c2 ∧ c2 ≤ '9') then [(digitVal c2, rest)] else []) ++
    (if '1' ≤ c1 ∧ c1 ≤ '9' then [(digitVal c1, c2 :: rest)] else [])
  | [c1] => if '1' ≤ c1 ∧ c1 ≤ '9' then [(digitVal c1, [])] else []
  | [] => []

/-- `%Y`: exactly four digits. -/
def matchYear : List Char → List (Nat × List Char)
  | a :: b :: c :: d :: rest =>
    if a.isDigit ∧ b.isDigit ∧ c.isDigit ∧ d.isDigit then
      [(1000 * digitVal a + 100 * digitVal b + 10 * digitVal c + digitVal d, rest)]
    else []
  | _ => []

/-- Case-insensitive strip of a fixed lowercase name from the input head. -/
def stripAbbr : List Char → List Char → Option (List Char)
  | [], rest => some rest
  | _ :: _, [] => none
  | a :: as, b :: bs => if a = b.toLower then stripAbbr as bs else none

/-- The `%b` month-abbreviation table, in the order Python tries them. -/
def monthTable : List (String × Nat) :=
  [("jan", 1), ("feb", 2), ("mar", 3), ("apr", 4), ("may", 5), ("jun", 6),
   ("jul", 7), ("aug", 8), ("sep", 9), ("oct", 10), ("nov", 11), ("dec", 12)]

/-- `%b`: case-insensitive month-name alternatives. -/
def matchMonAbbr (cs : List Char) : List (Nat × List Char) :=
  monthTable.flatMap fun p =>
    match stripAbbr p.1.toList cs with
    | some rest => [(p.2, rest)]
    | none => []

/-- `\s+`: consume one or more whitespace characters, greedy (longest drop
first in preference order). -/
def wsSplits : List Char → List (List Char)
  | [] => []
  | c :: rest => if c.isWhitespace then wsSplits rest ++ [rest] else []

/-- Format tokens appearing in the ten formats of CHECK 4. -/
inductive FTok where
  | dayT
  | monT
  | yearT
  | monAbbrT
  | ws
  | lit (c : Char)

/-- Fields captured so far by a partial regex match. -/
structure PD where
  y : Option Nat := none
  m : Option Nat := none
  d : Option Nat := none

/-- Candidates produced by one format token, in preference order. -/
def matchTok : FTok → PD → List Char → List (PD × List Char)
  | .dayT, pd, cs => (matchDay cs).map fun v => ({ pd with d := some v.1 }, v.2)
  | .monT, pd, cs => (matchMon cs).map fun v => ({ pd with m := some v.1 }, v.2)
  | .yearT, pd, cs => (matchYear cs).map fun v => ({ pd with y := some v.1 }, v.2)
  | .monAbbrT, pd, cs => (matchMonAbbr cs).map fun v => ({ pd with m := some v.1 }, v.2)
  | .ws, pd, cs => (wsSplits cs).map fun r => (pd, r)
  | .lit c, pd, cs =>
    match cs with
    | b :: rest => if b = c then [(pd, rest)] else []
    | [] => []

/-- All backtracking completions of a token list, in preference order. -/
def matchToks : List FTok → PD → List Char → List (PD × List Char)
  | [], pd, cs => [(pd, cs)]
  | t :: ts, pd, cs => (matchTok t pd cs).flatMap fun pr => matchToks ts pr.1 pr.2

/-- A calendar date as parsed by `datetime.strptime`. -/
structure DateYMD where
  y : Nat
  m : Nat
  d : Nat
deriving DecidableEq

/-- Gregorian leap year. -/
def isLeap (y : Nat) : Bool := (y % 4 = 0 && !(y % 100 = 0)) || y % 400 = 0

/-- Length of a month, as used by `datetime`'s validity check. -/
def daysInMonth (y m : Nat) : Nat :=
  if m = 2 then (if isLeap y then 29 else 28)
  else if m = 4 ∨ m = 6 ∨ m = 9 ∨ m = 11 then 30
  else 31

/-- `datetime(year, month, day)` constructor validity. -/
def validDate (y m d : Nat) : Bool :=
  1 ≤ y && y ≤ 9999 && 1 ≤ m && m ≤ 12 && 1 ≤ d && d ≤ daysInMonth y m

/-- `datetime.strptime(s, fmt)` for one of CHECK 4's formats: first
backtracking match, full consumption required, then date validity
(missing fields default to 1900-01-01). -/
def strptime (toks : List FTok) (s : String) : Option DateYMD :=
  match (matchToks toks {} s.toList).head? with
  | some (pd, []) =>
    let y := pd.y.getD 1900
    let m := pd.m.getD 1
    let d := pd.d.getD 1
    if validDate y m d then some ⟨y, m, d⟩ else none
  | _ => none

/-- Strict calendar order on parsed dates. -/
def dateLt (a b : DateYMD) : Bool :=
  a.y < b.y || (a.y = b.y && (a.m < b.m || (a.m = b.m && a.d < b.d)))

/-- The ten `date_formats` of CHECK 4, in source order:
`%Y-%m-%d, %d-%m-%Y, %m-%d-%Y, %Y/%m/%d, %d/%m/%Y, %m/%d/%Y, %d.%m.%Y,
%Y.%m.%d, %d %b %Y, %b %d, %Y`. -/
def date_formats : List (List FTok) :=
  [[.yearT, .lit '-', .monT, .lit '-', .dayT],
   [.dayT, .lit '-', .monT, .lit '-', .yearT],
   [.monT, .lit '-', .dayT, .lit '-', .yearT],
   [.yearT, .lit '/', .monT, .lit '/', .dayT],
   [.dayT, .lit '/', .monT, .lit '/', .yearT],
   [.monT, .lit '/', .dayT, .lit '/', .yearT],
   [.dayT, .lit '.', .monT, .lit '.', .yearT],
   [.yearT, .lit '.', .monT, .lit '.', .dayT],
   [.dayT, .ws, .monAbbrT, .ws, .yearT],
   [.monAbbrT, .ws, .dayT, .lit ',', .ws, .yearT]]

/-- CHECK 4's loop: the first format under which **both** dates parse
(a `ValueError` on either date moves on to the next format). -/
def tryFormats : List (List FTok) → String → String → Option (DateYMD × DateYMD)
  | [], _, _ => none
  | f :: fs, c, e =>
    match strptime f c, strptime f e with
    | some cd, some ed => some (cd, ed)
    | _, _ => tryFormats fs c e

/-! ## EligibilityEvaluator — `check_claim_eligibility`
(`src/backup.py`, lines 397-869).  The embedding models the body of the
function after the field extraction at lines 412-423 (`policy_status` is
lowercased there; numeric fields become `Rat`); the response of the
external exclusion classifier (CHECK 5's OpenAI call) is passed in as
data.  Numeric interpolations inside human-readable messages are
abstracted to fixed text; the decision logic never reads them back. -/

/-- Field values extracted at the top of `check_claim_eligibility`. -/
structure EvalInput where
  policy_limit : Rat
  past_claims_amount : Rat
  claim_history_count : Nat
  policy_status : String
  policy_expiry_date : String
  exclusions : String
  claim_amount : Rat
  claim_date : String
  reason_for_claim : String

/-- Outcome of the external exclusion-text classifier call in CHECK 5:
no client configured, the call raised, or a parsed JSON verdict. -/
inductive ExclusionAI where
  | unavailable
  | failed
  | ok (is_excluded : Bool) (confidence : Rat)

/-- `policy_status` is lowercased at extraction (`.lower()`). -/
def statusLower (inp : EvalInput) : String := lowerStr inp.policy_status

/-- The six ambiguity-detection triggers at lines 431-454, in source
order, each contributing its score and reason string. -/
def preFactors (inp : EvalInput) : List (Rat × String) :=
  (if inp.claim_amount = 0 then [((20 : Rat), "Missing or zero claim amount")] else []) ++
  (if inp.reason_for_claim = "" ∨ (trimStr inp.reason_for_claim).length < 10 then
    [((15 : Rat), "Missing or insufficient claim reason")] else []) ++
  (if statusLower inp = "" ∨ statusLower inp = "unknown" then
    [((25 : Rat), "Policy status unclear or missing")] else []) ++
  (if inp.policy_expiry_date = "" then [((15 : Rat), "Policy expiry date missing")] else []) ++
  (if inp.claim_date = "" then [((10 : Rat), "Claim date missing")] else []) ++
  (if inp.policy_limit = 0 then [((20 : Rat), "Policy limit data unavailable")] else [])

/-- `available_limit = policy_limit - past_claims_amount`, clamped to 0
when negative (lines 457-461). -/
def availableLimit (inp : EvalInput) : Rat :=
  let a := inp.policy_limit - inp.past_claims_amount
  if a < 0 then 0 else a

/-- `utilization_percentage = (claim_amount / available_limit) * 100`. -/
def utilizationPct (inp : EvalInput) : Rat :=
  inp.claim_amount / availableLimit inp * 100

/-- Borderline-utilization ambiguity (lines 464-468): utilization within
90-110% of the available limit adds 10. -/
def borderlineFactor (inp : EvalInput) : List (Rat × String) :=
  if inp.claim_amount > 0 ∧ availableLimit inp > 0 then
    if 90 ≤ utilizationPct inp ∧ utilizationPct inp ≤ 110 then
      [((10 : Rat), "Claim amount borderline (percentage of available limit)")]
    else []
  else []

/-- Outcome of CHECK 4 (lines 568-640). -/
inductive Check4 where
  | reject
  | pass
  | noParse
  | skip
deriving DecidableEq

/-- CHECK 4: try the ten formats on both date strings; on the first format
parsing both, reject iff the claim date is after the expiry date; if no
format parses both, the check is ambiguous; missing dates skip it. -/
def check4 (inp : EvalInput) : Check4 :=
  if inp.claim_date ≠ "" ∧ inp.policy_expiry_date ≠ "" then
    match tryFormats date_formats inp.claim_date inp.policy_expiry_date with
    | some (cd, ed) => if dateLt ed cd then .reject else .pass
    | none => .noParse
  else .skip

/-- CHECK 5's ambiguity contribution (lines 690-693): when the classifier
answers with confidence below 60, add `(60 - confidence) / 2`. -/
def check5Factors (inp : EvalInput) (ai : ExclusionAI) : List (Rat × String) :=
  if inp.reason_for_claim ≠ "" ∧ inp.exclusions ≠ "" then
    match ai with
    | .unavailable => []
    | .failed => []
    | .ok _ conf =>
      if conf < 60 then [((60 - conf) / 2, "AI exclusion analysis has low confidence")]
      else []
  else []

/-- CHECK 5's failure flag (lines 695-697): a positive exclusion match. -/
def check5Excluded (inp : EvalInput) (ai : ExclusionAI) : Bool :=
  if inp.reason_for_claim ≠ "" ∧ inp.exclusions ≠ "" then
    match ai with
    | .unavailable => false
    | .failed => false
    | .ok is_excl _ => is_excl
  else false

/-- All ambiguity factors accumulated along a non-rejecting run, in the
order the source appends them. -/
def allFactors (inp : EvalInput) (ai : ExclusionAI) : List (Rat × String) :=
  preFactors inp ++ borderlineFactor inp ++
  (if check4 inp = .noParse then
    [((20 : Rat), "Unable to parse claim or policy dates - format ambiguous")] else []) ++
  check5Factors inp ai

/-- The accumulated `ambiguity_score`. -/
def ambiguity_score (inp : EvalInput) (ai : ExclusionAI) : Rat :=
  ((allFactors inp ai).map Prod.fst).sum

/-- The `updated_values` proposal returned with an ELIGIBLE decision. -/
structure UpdatedVals where
  new_past_claims_amount : Rat
  new_claim_history_count : Nat
deriving DecidableEq

/-- The result dictionary of `check_claim_eligibility`, restricted to the
fields the decision pipeline consumes. -/
structure EligResult where
  eligibility_decision : String
  confidence_score : Rat
  checks_failed : List String
  ambiguity_factors : List String
  updated_values : Option UpdatedVals
deriving DecidableEq

/-- CHECK 2's accepting statuses. -/
def okStatuses : List String := ["active", "valid", "current"]

/-- CHECK 2's immediately-fatal statuses. -/
def fatalStatuses : List String := ["expired", "inactive", "terminated", "cancelled"]

/-- The `checks_failed` entry CHECK 2 appends when the status is not
accepting (it is appended whether or not the status is fatal). -/
def statusChecksFailed (inp : EvalInput) : List String :=
  if statusLower inp ∈ okStatuses then [] else ["Policy is not active"]

/-- The `checks_failed` accumulator as it stands at the final decision
(CHECK 2's entry plus CHECK 5's exclusion match, when neither CHECK 1-4
short-circuited). -/
def finalChecksFailed (inp : EvalInput) (ai : ExclusionAI) : List String :=
  statusChecksFailed inp ++
    (if check5Excluded inp ai then ["Claim reason matches policy exclusion"] else [])

/-- The tiered NOT ELIGIBLE confidence of lines 808-819. -/
def rejectionConfidence (amb : Rat) : Rat :=
  if amb ≥ 50 then max (40 - (amb - 50) / 2) 20
  else if amb ≥ 30 then 50 + (50 - amb)
  else max (90 - amb) 75

/-- `check_claim_eligibility`: ordered checks with short-circuit returns,
then the final confidence computation (ELIGIBLE: `max(95 - ambiguity, 30)`;
NOT ELIGIBLE: tiered by ambiguity). -/
def check_claim_eligibility (inp : EvalInput) (ai : ExclusionAI) : EligResult :=
  if inp.claim_amount > availableLimit inp then
    { eligibility_decision := "NOT ELIGIBLE", confidence_score := 95,
      checks_failed := ["Claim amount exceeded available limit"],
      ambiguity_factors := [], updated_values := none }
  else if statusLower inp ∈ fatalStatuses then
    { eligibility_decision := "NOT ELIGIBLE", confidence_score := 100,
      checks_failed := statusChecksFailed inp,
      ambiguity_factors := [], updated_values := none }
  else if 4 ≤ inp.claim_history_count then
    { eligibility_decision := "NOT ELIGIBLE", confidence_score := 95,
      checks_failed := statusChecksFailed inp ++ ["Maximum claim count exceeded"],
      ambiguity_factors := [], updated_values := none }
  else if check4 inp = .reject then
    { eligibility_decision := "NOT ELIGIBLE", confidence_score := 95,
      checks_failed := statusChecksFailed inp ++ ["Claim date after policy expiry"],
      ambiguity_factors := [], updated_values := none }
  else if finalChecksFailed inp ai = [] then
    { eligibility_decision := "ELIGIBLE",
      confidence_score := max (95 - ambiguity_score inp ai) 30,
      checks_failed := [],
      ambiguity_factors := (allFactors inp ai).map Prod.snd,
      updated_values := some ⟨inp.past_claims_amount + inp.claim_amount,
                              inp.claim_history_count + 1⟩ }
  else
    { eligibility_decision := "NOT ELIGIBLE",
      confidence_score := rejectionConfidence (ambiguity_score inp ai),
      checks_failed := finalChecksFailed inp ai,
      ambiguity_factors := (allFactors inp ai).map Prod.snd,
      updated_values := none }

/-! ## ReviewQueue — `HumanReviewAgent`
(`src/human_review_agent.py`, lines 61-217).  The two JSON files
(`review_queue.json`, `review_history.json`) are modelled as the two list
components of a `QueueState`; the JSON payloads the queue never inspects
are opaque strings. -/

/-- The slice of `analysis_result` the queue reads
(`analysis_result.get('confidence_score', 0)`). -/
structure AnalysisBlob where
  confidence_score : Rat
  payload : String
deriving DecidableEq

/-- A review record as written by `flag_for_review`. -/
structure ReviewRecord where
  review_id : String
  timestamp : String
  status : String
  claim_data : String
  analysis_result : AnalysisBlob
  flag_reason : String
  confidence_score : Rat
  reviewer_notes : String
  final_decision : Option String
  reviewed_by : Option String
  review_date : Option String
deriving DecidableEq

/-- The durable state: `review_queue.json` and `review_history.json`. -/
structure QueueState where
  queue : List ReviewRecord
  history : List ReviewRecord
deriving DecidableEq

/-- `review_id = f"REV-{datetime.now().strftime('%Y%m%d%H%M%S')}"`:
the id is the second-resolution wall-clock timestamp, nothing else. -/
def mkReviewId (now_compact : String) : String := "REV-" ++ now_compact

/-- `flag_for_review(claim_data, analysis_result, reason)`: build a pending
record and append it to the queue.  `now_compact` is the
`%Y%m%d%H%M%S`-formatted current second; `now_iso` the ISO timestamp. -/
def flag_for_review (st : QueueState) (now_compact now_iso : String)
    (claim_data : String) (analysis : AnalysisBlob) (reason : String) :
    ReviewRecord × QueueState :=
  let record : ReviewRecord :=
    { review_id := mkReviewId now_compact, timestamp := now_iso,
      status := "pending", claim_data := claim_data,
      analysis_result := analysis, flag_reason := reason,
      confidence_score := analysis.confidence_score, reviewer_notes := "",
      final_decision := none, reviewed_by := none, review_date := none }
  (record, { st with queue := st.queue ++ [record] })

/-- The field updates `submit_review_decision` performs on the matched
record (lines 133-139).  Note: the source never checks the current
`status` before overwriting. -/
def updateRecord (r : ReviewRecord) (decision reviewer_name notes now_iso : String) :
    ReviewRecord :=
  { r with
    status := "reviewed"
    final_decision := some decision
    reviewer_notes := notes
    reviewed_by := some reviewer_name
    review_date := some now_iso }

/-- The `for record in queue` loop of `submit_review_decision`: update the
first record whose `review_id` matches, in place. -/
def resolveInQueue (review_id decision reviewer_name notes now_iso : String) :
    List ReviewRecord → Option (ReviewRecord × List ReviewRecord)
  | [] => none
  | r :: rest =>
    if r.review_id = review_id then
      let r' := updateRecord r decision reviewer_name notes now_iso
      some (r', r' :: rest)
    else
      match resolveInQueue review_id decision reviewer_name notes now_iso rest with
      | some (u, rest') => some (u, r :: rest')
      | none => none

/-- `submit_review_decision(review_id, decision, reviewer_name, notes)`:
on a match, save the updated queue (the record stays in it) and append a
copy to the history; with no match, raise `ValueError`. -/
def submit_review_decision (st : QueueState)
    (review_id decision reviewer_name notes now_iso : String) :
    Except String (ReviewRecord × QueueState) :=
  match resolveInQueue review_id decision reviewer_name notes now_iso st.queue with
  | some (r', q') => .ok (r', { queue := q', history := st.history ++ [r'] })
  | none => .error ("Review ID " ++ review_id ++ " not found")

/-- `all_reviews = queue + history` as in `get_review_statistics`. -/
def allReviews (st : QueueState) : List ReviewRecord := st.queue ++ st.history

/-- The statistics dictionary of `get_review_statistics`. -/
structure ReviewStats where
  total_reviews : Nat
  pending : Nat
  reviewed : Nat
  approved : Nat
  rejected : Nat
  avg_confidence : Rat
deriving DecidableEq

/-- `get_review_statistics`: counts over the concatenation of queue and
history. -/
def get_review_statistics (st : QueueState) : ReviewStats :=
  let all := allReviews st
  { total_reviews := all.length,
    pending := (all.filter fun r => r.status = "pending").length,
    reviewed := (all.filter fun r => r.status = "reviewed").length,
    approved := (all.filter fun r => r.final_decision = some "APPROVE").length,
    rejected := (all.filter fun r => r.final_decision = some "REJECT").length,
    avg_confidence :=
      if all.length = 0 then 0
      else (all.map fun r => r.confidence_score).sum / (all.length : Rat) }

/-- Number of records carrying a given `review_id`. -/
def countId (rs : List ReviewRecord) (review_id : String) : Nat :=
  (rs.filter fun r => r.review_id = review_id).length

/-! ## Concrete inputs used by counterexamples and witnesses -/

/-- Exclusion classifier absent (`get_openai_client()` returned `None`). -/
def ai0 : ExclusionAI := .unavailable

/-- Scenario A: claim 5000 against limit 10000 with past claims 8000. -/
def inpA : EvalInput :=
  ⟨10000, 8000, 1, "active", "2025-01-01", "", 5000, "2024-11-14", "engine fire damage"⟩

/-- Scenario B: claim 5000 against limit 10000 with past claims 2000. -/
def inpB : EvalInput :=
  ⟨10000, 2000, 1, "active", "2025-01-01", "", 5000, "2024-11-14", "engine fire damage"⟩

/-- Status "Expired" together with an over-limit claim amount. -/
def inpExpiredOver : EvalInput :=
  ⟨1000, 0, 0, "Expired", "2025-01-01", "", 2000, "2024-11-14", "engine fire damage"⟩

/-- Status "Expired" with a claim amount inside the available limit. -/
def inpExpiredIn : EvalInput :=
  ⟨10000, 0, 0, "Expired", "2025-01-01", "", 2000, "2024-11-14", "engine fire damage"⟩

/-- Zero claim amount on a policy whose past claims exceed its limit. -/
def inpZeroClaim : EvalInput :=
  ⟨0, 100, 0, "active", "2025-01-01", "", 0, "2024-11-14", "engine fire damage"⟩

/-- Policy status "unknown", every other field clean. -/
def inpUnknown : EvalInput :=
  ⟨10000, 2000, 1, "unknown", "2025-01-01", "", 5000, "2024-11-14", "engine fire damage"⟩

/-- Scenario E's date pair: `14-11-2024` and `2024-11-20`. -/
def inpMixedDates : EvalInput :=
  ⟨10000, 2000, 1, "active", "2024-11-20", "", 5000, "14-11-2024", "engine fire damage"⟩

/-- First enqueue call: empty state, wall-clock second 2025-01-01
12:00:00. -/
def c9Call1 : ReviewRecord × QueueState :=
  flag_for_review ⟨[], []⟩ "20250101120000" "2025-01-01T12:00:00.000001"
    "claim payload A" ⟨40, "analysis A"⟩ "Low AI confidence"

/-- Second, distinct enqueue call within the same wall-clock second. -/
def c9Call2 : ReviewRecord × QueueState :=
  flag_for_review c9Call1.2 "20250101120000" "2025-01-01T12:00:00.500000"
    "claim payload B" ⟨60, "analysis B"⟩ "Edge case detected"

/-- A pending review record used by the concrete C1 run. -/
def c1Record : ReviewRecord :=
  { review_id := "REV-20250101120000", timestamp := "2025-01-01T12:00:00",
    status := "pending", claim_data := "claim payload",
    analysis_result := ⟨42, "analysis payload"⟩,
    flag_reason := "Low AI confidence", confidence_score := 42,
    reviewer_notes := "", final_decision := none, reviewed_by := none,
    review_date := none }

/-- Queue holding exactly the pending record. -/
def c1State : QueueState := ⟨[c1Record], []⟩

/-- Decision stored by a resolution call, when it succeeded. -/
def exceptDecision : Except String (ReviewRecord × QueueState) → Option (Option String)
  | .ok p => some p.1.final_decision
  | .error _ => none

/-- First resolution of the pending record. -/
def c1After1 : Except String (ReviewRecord × QueueState) :=
  submit_review_decision c1State "REV-20250101120000" "APPROVE" "alice"
    "documents verified" "2025-01-01T12:05:00"

/-- State left by the first resolution. -/
def c1State1 : QueueState :=
  match c1After1 with
  | .ok p => p.2
  | .error _ => ⟨[], []⟩

/-- Second resolution of the same review id. -/
def c1After2 : Except String (ReviewRecord × QueueState) :=
  submit_review_decision c1State1 "REV-20250101120000" "REJECT" "bob"
    "second opinion" "2025-01-01T12:10:00"

/-- A pending review record used by the concrete C10 run. -/
def c10Record : ReviewRecord :=
  { review_id := "REV-20250102090000", timestamp := "2025-01-02T09:00:00",
    status := "pending", claim_data := "claim payload C",
    analysis_result := ⟨55, "analysis payload C"⟩,
    flag_reason := "Edge case detected", confidence_score := 55,
    reviewer_notes := "", final_decision := none, reviewed_by := none,
    review_date := none }

/-- The state before resolving `r`: the record sits in the queue between
`q1` and `q2`, the history is `hist`. -/
def preState (q1 q2 hist : List ReviewRecord) (r : ReviewRecord) : QueueState :=
  ⟨q1 ++ r :: q2, hist⟩

/-- The state `submit_review_decision` leaves: the record updated in
place in the queue AND a copy appended to the history. -/
def postState (q1 q2 hist : List ReviewRecord) (r : ReviewRecord)
    (d rv n t : String) : QueueState :=
  ⟨q1 ++ updateRecord r d rv n t :: q2, hist ++ [updateRecord r d rv n t]⟩

/-! ## Helper lemmas -/

/-- A fatal status is not an accepting status. -/
theorem fatal_not_ok {s : String} (h : s ∈ fatalStatuses) : s ∉ okStatuses := by
  fin_cases h <;> decide

/-- With a fatal status, CHECK 2's `checks_failed` entry is present. -/
theorem statusChecksFailed_of_fatal {inp : EvalInput}
    (h : statusLower inp ∈ fatalStatuses) :
    statusChecksFailed inp = ["Policy is not active"] := by
  unfold statusChecksFailed
  rw [if_neg (fatal_not_ok h)]

/-- Membership in a conditional singleton pins down the element and the
condition. -/
theorem mem_ite_singleton {α : Type} {c : Prop} [Decidable c] {x p : α}
    (h : p ∈ if c then [x] else []) : c ∧ p = x := by
  split at h
  · exact ⟨by assumption, by simpa using h⟩
  · simp at h

/-- Membership in a doubly conditional singleton pins down the element. -/
theorem mem_ite_ite_singleton {α : Type} {c d : Prop} [Decidable c] [Decidable d]
    {x p : α} (h : p ∈ if c then (if d then [x] else []) else []) : p = x := by
  split at h
  · exact (mem_ite_singleton h).2
  · simp at h

/-- CHECK 5's ambiguity contribution is nonnegative. -/
theorem check5Factors_nonneg (inp : EvalInput) (ai : ExclusionAI) :
    ∀ p ∈ check5Factors inp ai, 0 ≤ p.1 := by
  intro p hp
  unfold check5Factors at hp
  split at hp
  · cases ai with
    | unavailable => simp at hp
    | failed => simp at hp
    | ok b conf =>
      have hp' : p ∈ (if conf < 60 then
          [((60 - conf) / 2, "AI exclusion analysis has low confidence")]
          else ([] : List (Rat × String))) := hp
      rcases mem_ite_singleton hp' with ⟨hconf, rfl⟩
      show 0 ≤ (60 - conf) / 2
      linarith
  · simp at hp

/-- Every accumulated ambiguity factor has a nonnegative weight. -/
theorem allFactors_nonneg (inp : EvalInput) (ai : ExclusionAI) :
    ∀ p ∈ allFactors inp ai, 0 ≤ p.1 := by
  intro p hp
  unfold allFactors preFactors borderlineFactor at hp
  simp only [List.mem_append, or_assoc] at hp
  rcases hp with h | h | h | h | h | h | h | h | h
  all_goals first
  | (rw [(mem_ite_singleton h).2]; norm_num)
  | (rw [mem_ite_ite_singleton h]; norm_num)
  | exact check5Factors_nonneg inp ai p h

/-- The accumulated ambiguity score is nonnegative. -/
theorem ambiguity_score_nonneg (inp : EvalInput) (ai : ExclusionAI) :
    0 ≤ ambiguity_score inp ai := by
  unfold ambiguity_score
  apply List.sum_nonneg
  intro x hx
  rcases List.mem_map.mp hx with ⟨p, hp, rfl⟩
  exact allFactors_nonneg inp ai p hp

/-! ## Claim C2 — escalation for fraud-flagged claims -/

/-- C2: the claim asserts that a fraud-flagged claim (fraud probability
0.72 against threshold 0.65, hence `fraud_prediction = 1`) makes
`needs_review` return true even at eligibility confidence 95.  The source
`needs_review` takes no fraud input at all and returns false at
confidence 95 with no failed checks. -/
theorem C2_counterexample :
    fraud_prediction (72/100) (65/100) = 1 ∧
    get_risk_level (72/100) (65/100) = "High Risk (Fraud Detected)" ∧
    needs_review 50 95 [] = false := by
  refine ⟨?_, ?_, ?_⟩
  · unfold fraud_prediction
    rw [if_pos (by norm_num)]
  · unfold get_risk_level
    rw [if_pos (by norm_num)]
  · unfold needs_review
    rw [if_neg (by norm_num)]
    rfl

/-- C2 (amended): `needs_review` consults only the confidence score and
the failed-check labels — the fraud flag is not an input — returning true
exactly when confidence is below the 50 threshold or some failed check
contains an edge-case keyword; in particular a fraud-flagged claim
(`fraud_prediction (72/100) (65/100) = 1`) with eligibility confidence 95
and no failed checks is not flagged by `needs_review`.  Fraud-flagged
claims reach a human through a separate fraud-review path. -/
theorem C2_amended :
    (∀ (confidence_score : Rat) (checks_failed : List String),
      needs_review 50 confidence_score checks_failed = true ↔
        confidence_score < 50 ∨ ∃ check ∈ checks_failed, ∃ e ∈ edge_cases,
          substrB e.toList (lowerStr check).toList = true) ∧
    fraud_prediction (72/100) (65/100) = 1 ∧
    needs_review 50 95 [] = false := by
  refine ⟨?_, C2_counterexample.1, C2_counterexample.2.2⟩
  intro confidence_score checks_failed
  unfold needs_review
  by_cases h : confidence_score < 50
  · simp [h]
  · simp [h, List.any_eq_true]

/-! ## Claim C8 — monotonicity of the risk classifier -/

/-- C8: for a fixed threshold, the risk bucket assigned by
`get_risk_level` is monotone in the probability, with buckets ordered
Very Low < Low < Medium < High. -/
theorem C8_risk_monotone (t p1 p2 : Rat) (h : p1 ≤ p2) :
    riskOrd (get_risk_level p1 t) ≤ riskOrd (get_risk_level p2 t) := by
  unfold get_risk_level
  split_ifs <;> first
  | decide
  | (exfalso; linarith)

/-- C8 witness: probabilities 0.5 ≤ 0.72 at threshold 0.65. -/
theorem C8_risk_monotone_witness :
    (1/2 : Rat) ≤ 72/100 ∧
    riskOrd (get_risk_level (1/2) (65/100)) ≤
      riskOrd (get_risk_level (72/100) (65/100)) :=
  ⟨by norm_num, C8_risk_monotone (65/100) (1/2) (72/100) (by norm_num)⟩

/-! ## Claim C9 — review-id uniqueness -/

/-- C9: the claim asserts review_ids of distinct enqueue calls always
differ.  Two distinct calls (different payloads, both records enqueued)
within the same wall-clock second receive the same review_id. -/
theorem C9_counterexample :
    c9Call1.1.claim_data ≠ c9Call2.1.claim_data ∧
    c9Call1.1.review_id = c9Call2.1.review_id ∧
    c9Call2.2.queue.length = 2 := by
  refine ⟨by decide, rfl, rfl⟩

/-- C9 (amended): `review_id` is `"REV-"` followed by the
`%Y%m%d%H%M%S`-formatted current second and depends on nothing else:
the ids of two enqueue calls coincide exactly when their formatted
timestamps coincide, so ids are unique only across distinct wall-clock
seconds and calls inside one second collide. -/
theorem C9_amended (st1 st2 : QueueState) (tc1 ti1 tc2 ti2 cd1 cd2 re1 re2 : String)
    (a1 a2 : AnalysisBlob) :
    (flag_for_review st1 tc1 ti1 cd1 a1 re1).1.review_id =
      (flag_for_review st2 tc2 ti2 cd2 a2 re2).1.review_id ↔ tc1 = tc2 := by
  show mkReviewId tc1 = mkReviewId tc2 ↔ tc1 = tc2
  unfold mkReviewId
  constructor
  · intro h
    have hd : ("REV-" ++ tc1).data = ("REV-" ++ tc2).data := congrArg String.data h
    rw [String.data_append, String.data_append] at hd
    exact String.ext (List.append_cancel_left hd)
  · intro h
    rw [h]

/-! ## Branch lemmas for `check_claim_eligibility` -/

/-- CHECK 1 rejection branch. -/
theorem check_elig_reject_limit (inp : EvalInput) (ai : ExclusionAI)
    (h : inp.claim_amount > availableLimit inp) :
    check_claim_eligibility inp ai =
      { eligibility_decision := "NOT ELIGIBLE", confidence_score := 95,
        checks_failed := ["Claim amount exceeded available limit"],
        ambiguity_factors := [], updated_values := none } := by
  unfold check_claim_eligibility
  rw [if_pos h]

/-- CHECK 2 fatal-status rejection branch. -/
theorem check_elig_reject_status (inp : EvalInput) (ai : ExclusionAI)
    (h1 : ¬ inp.claim_amount > availableLimit inp)
    (h2 : statusLower inp ∈ fatalStatuses) :
    check_claim_eligibility inp ai =
      { eligibility_decision := "NOT ELIGIBLE", confidence_score := 100,
        checks_failed := ["Policy is not active"],
        ambiguity_factors := [], updated_values := none } := by
  unfold check_claim_eligibility
  rw [if_neg h1, if_pos h2, statusChecksFailed_of_fatal h2]

/-- CHECK 3 claim-frequency rejection branch. -/
theorem check_elig_reject_history (inp : EvalInput) (ai : ExclusionAI)
    (h1 : ¬ inp.claim_amount > availableLimit inp)
    (h2 : statusLower inp ∉ fatalStatuses)
    (h3 : 4 ≤ inp.claim_history_count) :
    check_claim_eligibility inp ai =
      { eligibility_decision := "NOT ELIGIBLE", confidence_score := 95,
        checks_failed := statusChecksFailed inp ++ ["Maximum claim count exceeded"],
        ambiguity_factors := [], updated_values := none } := by
  unfold check_claim_eligibility
  rw [if_neg h1, if_neg h2, if_pos h3]

/-- CHECK 4 temporal rejection branch. -/
theorem check_elig_reject_date (inp : EvalInput) (ai : ExclusionAI)
    (h1 : ¬ inp.claim_amount > availableLimit inp)
    (h2 : statusLower inp ∉ fatalStatuses)
    (h3 : ¬ 4 ≤ inp.claim_history_count)
    (h4 : check4 inp = Check4.reject) :
    check_claim_eligibility inp ai =
      { eligibility_decision := "NOT ELIGIBLE", confidence_score := 95,
        checks_failed := statusChecksFailed inp ++ ["Claim date after policy expiry"],
        ambiguity_factors := [], updated_values := none } := by
  unfold check_claim_eligibility
  rw [if_neg h1, if_neg h2, if_neg h3, if_pos h4]

/-- The all-checks-passed branch. -/
theorem check_elig_eligible (inp : EvalInput) (ai : ExclusionAI)
    (h1 : ¬ inp.claim_amount > availableLimit inp)
    (h2 : statusLower inp ∉ fatalStatuses)
    (h3 : ¬ 4 ≤ inp.claim_history_count)
    (h4 : ¬ check4 inp = Check4.reject)
    (h5 : finalChecksFailed inp ai = []) :
    check_claim_eligibility inp ai =
      { eligibility_decision := "ELIGIBLE",
        confidence_score := max (95 - ambiguity_score inp ai) 30,
        checks_failed := [],
        ambiguity_factors := (allFactors inp ai).map Prod.snd,
        updated_values := some ⟨inp.past_claims_amount + inp.claim_amount,
                                inp.claim_history_count + 1⟩ } := by
  unfold check_claim_eligibility
  rw [if_neg h1, if_neg h2, if_neg h3, if_neg h4, if_pos h5]

/-- The aggregated (non-short-circuit) rejection branch. -/
theorem check_elig_final_reject (inp : EvalInput) (ai : ExclusionAI)
    (h1 : ¬ inp.claim_amount > availableLimit inp)
    (h2 : statusLower inp ∉ fatalStatuses)
    (h3 : ¬ 4 ≤ inp.claim_history_count)
    (h4 : ¬ check4 inp = Check4.reject)
    (h5 : ¬ finalChecksFailed inp ai = []) :
    check_claim_eligibility inp ai =
      { eligibility_decision := "NOT ELIGIBLE",
        confidence_score := rejectionConfidence (ambiguity_score inp ai),
        checks_failed := finalChecksFailed inp ai,
        ambiguity_factors := (allFactors inp ai).map Prod.snd,
        updated_values := none } := by
  unfold check_claim_eligibility
  rw [if_neg h1, if_neg h2, if_neg h3, if_neg h4, if_neg h5]

/-- The tiered rejection confidence never reaches 100. -/
theorem rejectionConfidence_lt_100 (amb : Rat) (h : 0 ≤ amb) :
    rejectionConfidence amb < 100 := by
  unfold rejectionConfidence
  split_ifs with h1 h2
  · exact max_lt (by linarith) (by norm_num)
  · linarith
  · exact max_lt (by linarith) (by norm_num)

/-! ## Claim C4 — the limit check -/

/-- C4: the claim quantifies over `claim_amount > policy_limit −
past_claims_amount`; with a zero claim amount on a policy whose past
claims exceed its limit that inequality holds, yet the evaluation
returns ELIGIBLE (confidence 55), because the code clamps the available
limit at 0 and compares against the clamp. -/
theorem C4_counterexample :
    inpZeroClaim.claim_amount >
      inpZeroClaim.policy_limit - inpZeroClaim.past_claims_amount ∧
    (check_claim_eligibility inpZeroClaim ai0).eligibility_decision = "ELIGIBLE" ∧
    (check_claim_eligibility inpZeroClaim ai0).confidence_score = 55 := by
  have h1 : ¬ inpZeroClaim.claim_amount > availableLimit inpZeroClaim := by
    norm_num [availableLimit, inpZeroClaim]
  have h2 : statusLower inpZeroClaim ∉ fatalStatuses := by decide
  have h3 : ¬ 4 ≤ inpZeroClaim.claim_history_count := by decide
  have h4 : ¬ check4 inpZeroClaim = Check4.reject := by decide
  have h5 : finalChecksFailed inpZeroClaim ai0 = [] := by decide
  have hpre : preFactors inpZeroClaim =
      [(20, "Missing or zero claim amount"), (20, "Policy limit data unavailable")] := by
    decide
  have hbord : borderlineFactor inpZeroClaim = [] := by
    unfold borderlineFactor
    rw [if_neg (by norm_num [inpZeroClaim, availableLimit])]
  have hnp : ¬ check4 inpZeroClaim = Check4.noParse := by decide
  have hch5 : check5Factors inpZeroClaim ai0 = [] := by decide
  have hall : allFactors inpZeroClaim ai0 =
      [(20, "Missing or zero claim amount"), (20, "Policy limit data unavailable")] := by
    unfold allFactors
    rw [hpre, hbord, if_neg hnp, hch5]
    rfl
  have hamb : ambiguity_score inpZeroClaim ai0 = 40 := by
    unfold ambiguity_score
    rw [hall]
    norm_num
  rw [check_elig_eligible inpZeroClaim ai0 h1 h2 h3 h4 h5]
  refine ⟨by norm_num [inpZeroClaim], rfl, ?_⟩
  rw [hamb]
  norm_num

/-- C4 (amended): the limit check rejects exactly against the clamped
available limit: for every input with
`claim_amount > max(policy_limit − past_claims_amount, 0)` the evaluation
returns NOT ELIGIBLE with confidence 95 immediately; when the claim
amount is not above the clamped limit (e.g. a zero claim on an exhausted
policy) no rejection comes from this check. -/
theorem C4_amended (inp : EvalInput) (ai : ExclusionAI)
    (h : inp.claim_amount > availableLimit inp) :
    check_claim_eligibility inp ai =
      { eligibility_decision := "NOT ELIGIBLE", confidence_score := 95,
        checks_failed := ["Claim amount exceeded available limit"],
        ambiguity_factors := [], updated_values := none } :=
  check_elig_reject_limit inp ai h

/-- C4 witness: Scenario A — claim 5000, limit 10000, past claims 8000. -/
theorem C4_amended_witness :
    inpA.claim_amount > availableLimit inpA ∧
    check_claim_eligibility inpA ai0 =
      { eligibility_decision := "NOT ELIGIBLE", confidence_score := 95,
        checks_failed := ["Claim amount exceeded available limit"],
        ambiguity_factors := [], updated_values := none } :=
  ⟨by norm_num [availableLimit, inpA],
   C4_amended inpA ai0 (by norm_num [availableLimit, inpA])⟩

/-! ## Claim C3 — the status check -/

/-- C3: the claim asserts confidence exactly 100 for a fatal status
regardless of the claim amount.  With status "Expired" and a claim
amount above the available limit, CHECK 1 rejects first with
confidence 95, not 100. -/
theorem C3_counterexample :
    statusLower inpExpiredOver ∈ fatalStatuses ∧
    (check_claim_eligibility inpExpiredOver ai0).eligibility_decision =
      "NOT ELIGIBLE" ∧
    (check_claim_eligibility inpExpiredOver ai0).confidence_score = 95 ∧
    (check_claim_eligibility inpExpiredOver ai0).confidence_score ≠ 100 := by
  have h : inpExpiredOver.claim_amount > availableLimit inpExpiredOver := by
    norm_num [availableLimit, inpExpiredOver]
  rw [check_elig_reject_limit inpExpiredOver ai0 h]
  refine ⟨by decide, rfl, rfl, by norm_num⟩

/-- C3 (amended): whenever the limit check passes, a policy status in
{expired, inactive, terminated, cancelled} (case-insensitive) yields
NOT ELIGIBLE with confidence exactly 100, regardless of every other
field; when the limit check rejects first, the confidence is 95. -/
theorem C3_amended (inp : EvalInput) (ai : ExclusionAI)
    (hfatal : statusLower inp ∈ fatalStatuses)
    (hlimit : ¬ inp.claim_amount > availableLimit inp) :
    check_claim_eligibility inp ai =
      { eligibility_decision := "NOT ELIGIBLE", confidence_score := 100,
        checks_failed := ["Policy is not active"],
        ambiguity_factors := [], updated_values := none } :=
  check_elig_reject_status inp ai hlimit hfatal

/-- C3 witness: status "Expired" with the claim inside the limit. -/
theorem C3_amended_witness :
    statusLower inpExpiredIn ∈ fatalStatuses ∧
    ¬ inpExpiredIn.claim_amount > availableLimit inpExpiredIn ∧
    check_claim_eligibility inpExpiredIn ai0 =
      { eligibility_decision := "NOT ELIGIBLE", confidence_score := 100,
        checks_failed := ["Policy is not active"],
        ambiguity_factors := [], updated_values := none } :=
  ⟨by decide, by norm_num [availableLimit, inpExpiredIn],
   C3_amended inpExpiredIn ai0 (by decide)
     (by norm_num [availableLimit, inpExpiredIn])⟩

/-! ## Claim C5 — unknown or blank policy status -/

/-- C5: the claim asserts an unknown/blank status never causes a NOT
ELIGIBLE decision by itself.  With status "unknown" and every other field
clean, CHECK 2 appends "Policy is not active" to `checks_failed` and the
final aggregation rejects: NOT ELIGIBLE at confidence 75. -/
theorem C5_counterexample :
    statusLower inpUnknown = "unknown" ∧
    check_claim_eligibility inpUnknown ai0 =
      { eligibility_decision := "NOT ELIGIBLE", confidence_score := 75,
        checks_failed := ["Policy is not active"],
        ambiguity_factors := ["Policy status unclear or missing"],
        updated_values := none } := by
  have h1 : ¬ inpUnknown.claim_amount > availableLimit inpUnknown := by
    norm_num [availableLimit, inpUnknown]
  have h2 : statusLower inpUnknown ∉ fatalStatuses := by decide
  have h3 : ¬ 4 ≤ inpUnknown.claim_history_count := by decide
  have h4 : ¬ check4 inpUnknown = Check4.reject := by decide
  have h5 : ¬ finalChecksFailed inpUnknown ai0 = [] := by decide
  have hscf : finalChecksFailed inpUnknown ai0 = ["Policy is not active"] := by decide
  have hpre : preFactors inpUnknown = [(25, "Policy status unclear or missing")] := by
    decide
  have hbord : borderlineFactor inpUnknown = [] := by
    unfold borderlineFactor
    rw [if_pos ⟨by norm_num [inpUnknown], by norm_num [availableLimit, inpUnknown]⟩,
      if_neg (by norm_num [utilizationPct, availableLimit, inpUnknown])]
  have hnp : ¬ check4 inpUnknown = Check4.noParse := by decide
  have hch5 : check5Factors inpUnknown ai0 = [] := by decide
  have hall : allFactors inpUnknown ai0 = [(25, "Policy status unclear or missing")] := by
    unfold allFactors
    rw [hpre, hbord, if_neg hnp, hch5]
    rfl
  have hamb : ambiguity_score inpUnknown ai0 = 25 := by
    unfold ambiguity_score
    rw [hall]
    norm_num
  rw [check_elig_final_reject inpUnknown ai0 h1 h2 h3 h4 h5, hamb, hall, hscf]
  refine ⟨by decide, ?_⟩
  simp only [EligResult.mk.injEq, List.map_cons, List.map_nil]
  norm_num [rejectionConfidence]

/-- C5 (amended): an unknown or blank status never triggers the
immediate certain (confidence-100) status rejection — it adds 25
ambiguity instead — but CHECK 2 still records "Policy is not active"
in `checks_failed`, so (once the limit check passes) the evaluation
always ends NOT ELIGIBLE with confidence strictly below 100. -/
theorem C5_amended (inp : EvalInput) (ai : ExclusionAI)
    (hs : statusLower inp = "" ∨ statusLower inp = "unknown")
    (hlimit : ¬ inp.claim_amount > availableLimit inp) :
    (check_claim_eligibility inp ai).eligibility_decision = "NOT ELIGIBLE" ∧
    "Policy is not active" ∈ (check_claim_eligibility inp ai).checks_failed ∧
    (check_claim_eligibility inp ai).confidence_score < 100 := by
  have hok : statusLower inp ∉ okStatuses := by
    rcases hs with h | h <;> rw [h] <;> decide
  have hfatal : statusLower inp ∉ fatalStatuses := by
    rcases hs with h | h <;> rw [h] <;> decide
  have hscf : statusChecksFailed inp = ["Policy is not active"] := by
    unfold statusChecksFailed
    rw [if_neg hok]
  by_cases h3 : 4 ≤ inp.claim_history_count
  · rw [check_elig_reject_history inp ai hlimit hfatal h3, hscf]
    exact ⟨rfl, by simp, by norm_num⟩
  · by_cases h4 : check4 inp = Check4.reject
    · rw [check_elig_reject_date inp ai hlimit hfatal h3 h4, hscf]
      exact ⟨rfl, by simp, by norm_num⟩
    · have h5 : ¬ finalChecksFailed inp ai = [] := by
        unfold finalChecksFailed
        rw [hscf]
        simp
      rw [check_elig_final_reject inp ai hlimit hfatal h3 h4 h5]
      refine ⟨rfl, ?_, rejectionConfidence_lt_100 _ (ambiguity_score_nonneg inp ai)⟩
      unfold finalChecksFailed
      rw [hscf]
      simp

/-- C5 witness: status "unknown" with the claim inside the limit. -/
theorem C5_amended_witness :
    (statusLower inpUnknown = "" ∨ statusLower inpUnknown = "unknown") ∧
    ¬ inpUnknown.claim_amount > availableLimit inpUnknown ∧
    ((check_claim_eligibility inpUnknown ai0).eligibility_decision = "NOT ELIGIBLE" ∧
     "Policy is not active" ∈ (check_claim_eligibility inpUnknown ai0).checks_failed ∧
     (check_claim_eligibility inpUnknown ai0).confidence_score < 100) :=
  ⟨Or.inr (by decide), by norm_num [availableLimit, inpUnknown],
   C5_amended inpUnknown ai0 (Or.inr (by decide))
     (by norm_num [availableLimit, inpUnknown])⟩

/-! ## Claim C6 — the temporal check's date parsing -/

/-- C6: CHECK 4 uses the first of the ten formats parsing both dates; for
claim date "14-11-2024" against expiry "2024-11-20" no format parses
both, so one ambiguity factor (20 points) is added and the check causes
no rejection — on an otherwise-clean input the decision is ELIGIBLE at
confidence 75; in general, whenever no format parses both dates, the
temporal rejection "Claim date after policy expiry" cannot appear among
the failed checks. -/
theorem C6_temporal_check :
    tryFormats date_formats "14-11-2024" "2024-11-20" = none ∧
    check4 inpMixedDates = Check4.noParse ∧
    check_claim_eligibility inpMixedDates ai0 =
      { eligibility_decision := "ELIGIBLE", confidence_score := 75,
        checks_failed := [],
        ambiguity_factors := ["Unable to parse claim or policy dates - format ambiguous"],
        updated_values := some ⟨7000, 2⟩ } ∧
    ∀ (inp : EvalInput) (ai : ExclusionAI),
      tryFormats date_formats inp.claim_date inp.policy_expiry_date = none →
      "Claim date after policy expiry" ∉ (check_claim_eligibility inp ai).checks_failed := by
  refine ⟨by decide, by decide, ?_, ?_⟩
  · have h1 : ¬ inpMixedDates.claim_amount > availableLimit inpMixedDates := by
      norm_num [availableLimit, inpMixedDates]
    have h2 : statusLower inpMixedDates ∉ fatalStatuses := by decide
    have h3 : ¬ 4 ≤ inpMixedDates.claim_history_count := by decide
    have h4 : ¬ check4 inpMixedDates = Check4.reject := by decide
    have h5 : finalChecksFailed inpMixedDates ai0 = [] := by decide
    have hpre : preFactors inpMixedDates = [] := by decide
    have hbord : borderlineFactor inpMixedDates = [] := by
      unfold borderlineFactor
      rw [if_pos ⟨by norm_num [inpMixedDates], by norm_num [availableLimit, inpMixedDates]⟩,
        if_neg (by norm_num [utilizationPct, availableLimit, inpMixedDates])]
    have hnp : check4 inpMixedDates = Check4.noParse := by decide
    have hch5 : check5Factors inpMixedDates ai0 = [] := by decide
    have hall : allFactors inpMixedDates ai0 =
        [(20, "Unable to parse claim or policy dates - format ambiguous")] := by
      unfold allFactors
      rw [hpre, hbord, if_pos hnp, hch5]
      rfl
    have hamb : ambiguity_score inpMixedDates ai0 = 20 := by
      unfold ambiguity_score
      rw [hall]
      norm_num
    rw [check_elig_eligible inpMixedDates ai0 h1 h2 h3 h4 h5, hamb, hall]
    simp only [EligResult.mk.injEq, List.map_cons, List.map_nil, Option.some.injEq,
      UpdatedVals.mk.injEq]
    norm_num [inpMixedDates]
  · intro inp ai hnone
    have hc4 : ¬ check4 inp = Check4.reject := by
      unfold check4
      split_ifs with hd
      · rw [hnone]
        simp
      · simp
    by_cases g1 : inp.claim_amount > availableLimit inp
    · rw [check_elig_reject_limit inp ai g1]
      decide
    · by_cases g2 : statusLower inp ∈ fatalStatuses
      · rw [check_elig_reject_status inp ai g1 g2]
        decide
      · by_cases g3 : 4 ≤ inp.claim_history_count
        · rw [check_elig_reject_history inp ai g1 g2 g3]
          unfold statusChecksFailed
          split_ifs <;> decide
        · by_cases g5 : finalChecksFailed inp ai = []
          · rw [check_elig_eligible inp ai g1 g2 g3 hc4 g5]
            simp
          · rw [check_elig_final_reject inp ai g1 g2 g3 hc4 g5]
            unfold finalChecksFailed statusChecksFailed
            split_ifs <;> simp

/-! ## Claim C7 — the ELIGIBLE branch -/

/-- C7: whenever no check fails, the decision is ELIGIBLE with
confidence `max(95 - ambiguity_score, 30)` and `updated_values`
proposing `past_claims_amount + claim_amount` and
`claim_history_count + 1` (the evaluator is a pure function of its
inputs; it proposes the update without mutating the policy record).
Scenario B (limit 10000, past claims 2000, claim 5000): confidence 95
and `new_past_claims_amount = 7000`. -/
theorem C7_eligible_contract :
    (∀ (inp : EvalInput) (ai : ExclusionAI),
      (check_claim_eligibility inp ai).checks_failed = [] →
      check_claim_eligibility inp ai =
        { eligibility_decision := "ELIGIBLE",
          confidence_score := max (95 - ambiguity_score inp ai) 30,
          checks_failed := [],
          ambiguity_factors := (allFactors inp ai).map Prod.snd,
          updated_values := some ⟨inp.past_claims_amount + inp.claim_amount,
                                  inp.claim_history_count + 1⟩ }) ∧
    check_claim_eligibility inpB ai0 =
      { eligibility_decision := "ELIGIBLE", confidence_score := 95,
        checks_failed := [], ambiguity_factors := [],
        updated_values := some ⟨7000, 2⟩ } := by
  constructor
  · intro inp ai h
    by_cases h1 : inp.claim_amount > availableLimit inp
    · rw [check_elig_reject_limit inp ai h1] at h
      simp at h
    · by_cases h2 : statusLower inp ∈ fatalStatuses
      · rw [check_elig_reject_status inp ai h1 h2] at h
        simp at h
      · by_cases h3 : 4 ≤ inp.claim_history_count
        · rw [check_elig_reject_history inp ai h1 h2 h3] at h
          simp at h
        · by_cases h4 : check4 inp = Check4.reject
          · rw [check_elig_reject_date inp ai h1 h2 h3 h4] at h
            simp at h
          · by_cases h5 : finalChecksFailed inp ai = []
            · exact check_elig_eligible inp ai h1 h2 h3 h4 h5
            · rw [check_elig_final_reject inp ai h1 h2 h3 h4 h5] at h
              exact absurd h h5
  · have h1 : ¬ inpB.claim_amount > availableLimit inpB := by
      norm_num [availableLimit, inpB]
    have h2 : statusLower inpB ∉ fatalStatuses := by decide
    have h3 : ¬ 4 ≤ inpB.claim_history_count := by decide
    have h4 : ¬ check4 inpB = Check4.reject := by decide
    have h5 : finalChecksFailed inpB ai0 = [] := by decide
    have hpre : preFactors inpB = [] := by decide
    have hbord : borderlineFactor inpB = [] := by
      unfold borderlineFactor
      rw [if_pos ⟨by norm_num [inpB], by norm_num [availableLimit, inpB]⟩,
        if_neg (by norm_num [utilizationPct, availableLimit, inpB])]
    have hnp : ¬ check4 inpB = Check4.noParse := by decide
    have hch5 : check5Factors inpB ai0 = [] := by decide
    have hall : allFactors inpB ai0 = [] := by
      unfold allFactors
      rw [hpre, hbord, if_neg hnp, hch5]
      rfl
    have hamb : ambiguity_score inpB ai0 = 0 := by
      unfold ambiguity_score
      rw [hall]
      norm_num
    rw [check_elig_eligible inpB ai0 h1 h2 h3 h4 h5, hamb, hall]
    simp only [EligResult.mk.injEq, List.map_nil, Option.some.injEq, UpdatedVals.mk.injEq]
    norm_num [inpB]

/-- C7 witness: Scenario B has no failed checks, and the general
contract instantiated there gives the ELIGIBLE record. -/
theorem C7_eligible_contract_witness :
    (check_claim_eligibility inpB ai0).checks_failed = [] ∧
    check_claim_eligibility inpB ai0 =
      { eligibility_decision := "ELIGIBLE",
        confidence_score := max (95 - ambiguity_score inpB ai0) 30,
        checks_failed := [],
        ambiguity_factors := (allFactors inpB ai0).map Prod.snd,
        updated_values := some ⟨inpB.past_claims_amount + inpB.claim_amount,
                                inpB.claim_history_count + 1⟩ } :=
  have hB : (check_claim_eligibility inpB ai0).checks_failed = [] := by
    rw [C7_eligible_contract.2]
  ⟨hB, C7_eligible_contract.1 inpB ai0 hB⟩

/-! ## Review-queue lemmas -/

/-- `updateRecord` keeps the review id. -/
theorem updateRecord_review_id (r : ReviewRecord) (d rv n t : String) :
    (updateRecord r d rv n t).review_id = r.review_id := rfl

/-- `updateRecord` keeps the confidence score. -/
theorem updateRecord_confidence (r : ReviewRecord) (d rv n t : String) :
    (updateRecord r d rv n t).confidence_score = r.confidence_score := rfl

/-- When some queue record carries the id, the resolution loop succeeds,
the returned record is marked reviewed with the new decision, and a
record with the id is still present in the saved queue. -/
theorem resolveInQueue_spec (rid d rv n t : String) (rs : List ReviewRecord)
    (h : ∃ r ∈ rs, r.review_id = rid) :
    ∃ r' rs', resolveInQueue rid d rv n t rs = some (r', rs') ∧
      r'.review_id = rid ∧ r'.status = "reviewed" ∧ r'.final_decision = some d ∧
      ∃ x ∈ rs', x.review_id = rid := by
  induction rs with
  | nil => simp at h
  | cons r rest ih =>
    by_cases hr : r.review_id = rid
    · refine ⟨updateRecord r d rv n t, updateRecord r d rv n t :: rest, ?_,
        by rw [updateRecord_review_id]; exact hr, rfl, rfl,
        updateRecord r d rv n t, List.mem_cons_self _ _,
        by rw [updateRecord_review_id]; exact hr⟩
      unfold resolveInQueue
      rw [if_pos hr]
    · have h' : ∃ x ∈ rest, x.review_id = rid := by
        rcases h with ⟨x, hx, hid⟩
        rcases List.mem_cons.mp hx with rfl | hx'
        · exact absurd hid hr
        · exact ⟨x, hx', hid⟩
      rcases ih h' with ⟨r', rs', heq, hid, hst, hfd, x, hxmem, hxid⟩
      refine ⟨r', r :: rs', ?_, hid, hst, hfd, x, List.mem_cons_of_mem _ hxmem, hxid⟩
      unfold resolveInQueue
      rw [if_neg hr, heq]

/-- Explicit shape of the resolution loop when the first matching record
is isolated: the record is updated in place. -/
theorem resolveInQueue_append (rid d rv n t : String) (q1 q2 : List ReviewRecord)
    (r : ReviewRecord) (hq1 : ∀ x ∈ q1, x.review_id ≠ rid) (hr : r.review_id = rid) :
    resolveInQueue rid d rv n t (q1 ++ r :: q2) =
      some (updateRecord r d rv n t, q1 ++ updateRecord r d rv n t :: q2) := by
  induction q1 with
  | nil =>
    show resolveInQueue rid d rv n t (r :: q2) = _
    unfold resolveInQueue
    rw [if_pos hr]
    rfl
  | cons a q1' ih =>
    show resolveInQueue rid d rv n t (a :: (q1' ++ r :: q2)) = _
    unfold resolveInQueue
    rw [if_neg (hq1 a (List.mem_cons_self _ _)),
      ih fun x hx => hq1 x (List.mem_cons_of_mem _ hx)]
    rfl

/-- `submit_review_decision` in terms of a successful resolution loop:
the updated queue is saved and the updated record appended to history. -/
theorem submit_ok_of_resolve (st : QueueState) (rid d rv n t : String)
    {r' : ReviewRecord} {q' : List ReviewRecord}
    (h : resolveInQueue rid d rv n t st.queue = some (r', q')) :
    submit_review_decision st rid d rv n t =
      .ok (r', ⟨q', st.history ++ [r']⟩) := by
  unfold submit_review_decision
  rw [h]

/-! ## Claim C1 — re-resolving a review -/

/-- C1: the claim asserts the second resolution of the same review_id
fails (AlreadyResolvedError) and leaves `final_decision` unchanged.  In
the source the second call succeeds — no status check is performed — and
overwrites `final_decision` from APPROVE to REJECT. -/
theorem C1_counterexample :
    exceptDecision c1After1 = some (some "APPROVE") ∧
    exceptDecision c1After2 = some (some "REJECT") := by
  exact ⟨rfl, rfl⟩

/-- C1 (amended): `submit_review_decision` never checks the record's
status: whenever a record with the review_id is in the queue, every call
succeeds, marks the record reviewed and sets `final_decision` to the
decision just supplied — a second call on the same id succeeds again and
overwrites `final_decision`; only an unknown review_id raises
(ValueError). -/
theorem C1_amended (st : QueueState) (rid d1 d2 rv1 rv2 n1 n2 t1 t2 : String)
    (h : ∃ r ∈ st.queue, r.review_id = rid) :
    ∃ r1 st1 r2 st2,
      submit_review_decision st rid d1 rv1 n1 t1 = .ok (r1, st1) ∧
      r1.status = "reviewed" ∧ r1.final_decision = some d1 ∧
      submit_review_decision st1 rid d2 rv2 n2 t2 = .ok (r2, st2) ∧
      r2.status = "reviewed" ∧ r2.final_decision = some d2 := by
  rcases resolveInQueue_spec rid d1 rv1 n1 t1 st.queue h with
    ⟨r1, q1, he1, _, hst1, hfd1, hmem1⟩
  rcases resolveInQueue_spec rid d2 rv2 n2 t2 q1 hmem1 with
    ⟨r2, q2, he2, _, hst2, hfd2, _⟩
  exact ⟨r1, ⟨q1, st.history ++ [r1]⟩, r2, ⟨q2, (st.history ++ [r1]) ++ [r2]⟩,
    submit_ok_of_resolve st rid d1 rv1 n1 t1 he1, hst1, hfd1,
    submit_ok_of_resolve ⟨q1, st.history ++ [r1]⟩ rid d2 rv2 n2 t2 he2,
    hst2, hfd2⟩

/-- C1 witness: the concrete two-call run on `c1State`. -/
theorem C1_amended_witness :
    (∃ r ∈ c1State.queue, r.review_id = "REV-20250101120000") ∧
    (∃ r1 st1 r2 st2,
      submit_review_decision c1State "REV-20250101120000" "APPROVE" "alice"
        "documents verified" "2025-01-01T12:05:00" = .ok (r1, st1) ∧
      r1.status = "reviewed" ∧ r1.final_decision = some "APPROVE" ∧
      submit_review_decision st1 "REV-20250101120000" "REJECT" "bob"
        "second opinion" "2025-01-01T12:10:00" = .ok (r2, st2) ∧
      r2.status = "reviewed" ∧ r2.final_decision = some "REJECT") :=
  ⟨⟨c1Record, List.mem_cons_self _ _, rfl⟩,
   C1_amended c1State "REV-20250101120000" "APPROVE" "REJECT" "alice" "bob"
     "documents verified" "second opinion" "2025-01-01T12:05:00"
     "2025-01-01T12:10:00" ⟨c1Record, List.mem_cons_self _ _, rfl⟩⟩

/-! ## Claim C10 — double counting after resolution -/

/-- A list holds no record with the id: its id-count is zero. -/
theorem countId_eq_zero {l : List ReviewRecord} {rid : String}
    (h : ∀ x ∈ l, x.review_id ≠ rid) : countId l rid = 0 := by
  unfold countId
  rw [List.length_eq_zero, List.filter_eq_nil_iff]
  intro a ha
  simpa using h a ha

/-- Id-count distributes over append. -/
theorem countId_append (a b : List ReviewRecord) (rid : String) :
    countId (a ++ b) rid = countId a rid + countId b rid := by
  unfold countId
  simp [List.filter_append]

/-- Id-count of a cons. -/
theorem countId_cons (x : ReviewRecord) (l : List ReviewRecord) (rid : String) :
    countId (x :: l) rid = (if x.review_id = rid then 1 else 0) + countId l rid := by
  by_cases h : x.review_id = rid <;>
    simp [countId, List.filter_cons, h, Nat.add_comm]

/-- Id-count of the empty list. -/
theorem countId_nil (rid : String) : countId [] rid = 0 := rfl

/-- C10: resolving a pending review keeps the reviewed record in the
queue and appends a copy to the history, so the id occurs twice in
`queue + history` and `get_review_statistics` counts the review twice:
total grows by 1 (the record was already counted once), reviewed by 2,
pending drops by 1, the approved/rejected tally for the submitted
decision grows by 2, and the confidence sum gains the record's
confidence once more while the average's denominator grows by 1. -/
theorem C10_double_count (hist q1 q2 : List ReviewRecord) (r : ReviewRecord)
    (d rv n t : String)
    (hq1 : ∀ x ∈ q1, x.review_id ≠ r.review_id)
    (hq2 : ∀ x ∈ q2, x.review_id ≠ r.review_id)
    (hh : ∀ x ∈ hist, x.review_id ≠ r.review_id)
    (hp : r.status = "pending")
    (hf : r.final_decision = none) :
    submit_review_decision (preState q1 q2 hist r) r.review_id d rv n t =
      .ok (updateRecord r d rv n t, postState q1 q2 hist r d rv n t) ∧
    countId (allReviews (postState q1 q2 hist r d rv n t)) r.review_id = 2 ∧
    (get_review_statistics (postState q1 q2 hist r d rv n t)).total_reviews =
      (get_review_statistics (preState q1 q2 hist r)).total_reviews + 1 ∧
    (get_review_statistics (postState q1 q2 hist r d rv n t)).reviewed =
      (get_review_statistics (preState q1 q2 hist r)).reviewed + 2 ∧
    (get_review_statistics (postState q1 q2 hist r d rv n t)).pending + 1 =
      (get_review_statistics (preState q1 q2 hist r)).pending ∧
    (d = "APPROVE" →
      (get_review_statistics (postState q1 q2 hist r d rv n t)).approved =
        (get_review_statistics (preState q1 q2 hist r)).approved + 2) ∧
    (d = "REJECT" →
      (get_review_statistics (postState q1 q2 hist r d rv n t)).rejected =
        (get_review_statistics (preState q1 q2 hist r)).rejected + 2) ∧
    ((allReviews (postState q1 q2 hist r d rv n t)).map
        fun x => x.confidence_score).sum =
      ((allReviews (preState q1 q2 hist r)).map
        fun x => x.confidence_score).sum + r.confidence_score := by
  refine ⟨?_, ?_, ?_, ?_, ?_, ?_, ?_, ?_⟩
  · exact submit_ok_of_resolve (preState q1 q2 hist r) r.review_id d rv n t
      (resolveInQueue_append r.review_id d rv n t q1 q2 r hq1 rfl)
  · have e1 : countId q1 r.review_id = 0 := countId_eq_zero hq1
    have e2 : countId q2 r.review_id = 0 := countId_eq_zero hq2
    have e3 : countId hist r.review_id = 0 := countId_eq_zero hh
    simp only [allReviews, postState, countId_append, countId_cons, countId_nil,
      updateRecord_review_id, e1, e2, e3, if_pos rfl]
    norm_num
  · simp [get_review_statistics, allReviews, postState, preState]
    omega
  · simp [get_review_statistics, allReviews, postState, preState,
      List.filter_append, List.filter_cons, updateRecord, hp]
    omega
  · simp [get_review_statistics, allReviews, postState, preState,
      List.filter_append, List.filter_cons, updateRecord, hp]
    omega
  · rintro rfl
    simp [get_review_statistics, allReviews, postState, preState,
      List.filter_append, List.filter_cons, updateRecord, hf]
    omega
  · rintro rfl
    simp [get_review_statistics, allReviews, postState, preState,
      List.filter_append, List.filter_cons, updateRecord, hf]
    omega
  · simp [allReviews, postState, preState, updateRecord]
    ring

/-- C10 witness: a one-record queue, empty history, decision APPROVE. -/
theorem C10_double_count_witness :
    countId (allReviews (postState [] [] [] c10Record "APPROVE" "carol"
      "figures check out" "2025-01-02T10:00:00")) c10Record.review_id = 2 :=
  (C10_double_count [] [] [] c10Record "APPROVE" "carol" "figures check out"
    "2025-01-02T10:00:00" (by simp) (by simp) (by simp) rfl rfl).2.1

/-- C6 witness: the general no-parse conclusion instantiated at the
Scenario E input. -/
theorem C6_temporal_check_witness :
    "Claim date after policy expiry" ∉
      (check_claim_eligibility inpMixedDates ai0).checks_failed :=
  C6_temporal_check.2.2.2 inpMixedDates ai0 (by decide)

end ClaimsEngine
